import Mathlib

/-!
Shallow embedding of the Pareto analysis engine in
`src/app/api/analyze/route.ts`: CSV parsing, row valuation, ranking,
tier classification, recommendation generation and report assembly.
JavaScript floating-point numbers are modelled as exact rationals.
-/

namespace Pareto

/-- A parsed CSV row: the JS object built by `parseCSV`, modelled as an
association list from column name to cell string (insertion order kept;
assigning to an existing key overwrites in place, as JS objects do). -/
abbrev Row := List (String × String)

/-- The JS assignment `row[k] = v` on an object modelled as an association
list. -/
def setField : Row → String → String → Row
  | [], k, v => [(k, v)]
  | (k', v') :: rest, k, v =>
    if k' = k then (k', v) :: rest else (k', v') :: setField rest k v

/-- Characters removed by JS `String.prototype.trim` (the ASCII whitespace
class; exotic Unicode space characters are not modelled). -/
def jsWhitespace (c : Char) : Bool :=
  c == ' ' || c == '\t' || c == '\n' || c == '\r' || c == '\x0b' || c == '\x0c'

/-- JS `String.prototype.trim` on the character list of a string. -/
def jsTrim (cs : List Char) : List Char :=
  ((cs.dropWhile jsWhitespace).reverse.dropWhile jsWhitespace).reverse

/-- JS `String.prototype.split` with a single-character separator:
`"".split(sep)` is `[""]`, and every separator occurrence opens a new
(possibly empty) field. -/
def splitChar (sep : Char) : List Char → List (List Char)
  | [] => [[]]
  | c :: cs =>
    match splitChar sep cs with
    | [] => [[]]
    | g :: gs => if c == sep then [] :: g :: gs else (c :: g) :: gs

/-- The cell cleanup `.trim().replace(/^"|"$/g, '')` applied to headers and
values alike: trim whitespace, then drop one leading and one trailing
double quote if present. -/
def cleanCell (cs : List Char) : String :=
  let t := jsTrim cs
  let t1 := if t.head? == some '"' then t.drop 1 else t
  String.mk (if t1.getLast? == some '"' then t1.dropLast else t1)

/-- The line filter `filter(line => line.trim())`: keep lines whose trimmed
form is non-empty. -/
def nonBlank (line : List Char) : Bool := !(jsTrim line).isEmpty

/-- One row object: `headers.forEach((header, index) => row[header] =
values[index] || '')`, a missing or empty cell becoming `''`. -/
def buildRow (headers values : List String) : Row :=
  headers.enum.foldl (fun row iv => setField row iv.2 (values.getD iv.1 "")) []

/-- Transcription of `parseCSV` (route.ts lines 74-91): split the text on
newlines, drop blank lines, read headers from the first remaining line and
build one Row per further line. -/
def parseCSV (csvText : String) : List Row :=
  let lines := (splitChar '\n' csvText.data).filter nonBlank
  match lines with
  | [] => []
  | headerLine :: dataLines =>
    let headers := (splitChar ',' headerLine).map cleanCell
    dataLines.map (fun line => buildRow headers ((splitChar ',' line).map cleanCell))

/-- The regex strip `String(value).replace(/[^0-9.-]/g, '')`: keep only
ASCII digits, dots and minus signs. -/
def numericStrip (s : String) : String :=
  String.mk (s.data.filter (fun c => c.isDigit || c == '.' || c == '-'))

/-- Value of a digit run read left to right. -/
def digitsToNat (ds : List Char) : Nat :=
  ds.foldl (fun acc d => acc * 10 + (d.toNat - 48)) 0

/-- Numeric value of the decimal literal `intDigits.fracDigits`. -/
def decimalVal (intDigits fracDigits : List Char) : ℚ :=
  (digitsToNat intDigits : ℚ) + (digitsToNat fracDigits : ℚ) / (10 : ℚ) ^ fracDigits.length

/-- Longest valid unsigned decimal prefix, `none` when no digit is read
(JS `parseFloat` returning NaN). -/
def parseFloatAux (cs : List Char) : Option ℚ :=
  let intDigits := cs.takeWhile Char.isDigit
  let rest := cs.dropWhile Char.isDigit
  let fracDigits :=
    match rest with
    | '.' :: r => r.takeWhile Char.isDigit
    | _ => []
  if intDigits.isEmpty && fracDigits.isEmpty then none
  else some (decimalVal intDigits fracDigits)

/-- JS `parseFloat` restricted to strings over the alphabet `0-9.-`, which is
all `numericStrip` can produce: an optional leading minus sign, then the
longest valid decimal prefix; `none` models NaN. -/
def jsParseFloat (s : String) : Option ℚ :=
  match s.data with
  | '-' :: rest => (parseFloatAux rest).map (fun q => -q)
  | cs => parseFloatAux cs

/-- The per-row valuation loop of `performParetoAnalysis` (lines 95-113):
`totalValue` is the sum of `Math.abs` of every cell value that parses as a
number; cells that fail to parse are skipped. -/
def rowWeight (row : Row) : ℚ :=
  row.foldl
    (fun acc kv =>
      match jsParseFloat (numericStrip kv.2) with
      | some q => acc + |q|
      | none => acc) 0

/-- A row together with its 1-based original position and its weight
(the `rowsWithValues` elements, minus the unused `numericValues` list). -/
structure ValuedRow where
  rowNumber : Nat
  data : Row
  totalValue : ℚ
deriving DecidableEq

/-- `rows.map((row, index) => ({rowNumber: index + 1, data: row, totalValue}))`. -/
def valueRows (rows : List Row) : List ValuedRow :=
  rows.enum.map (fun ir => { rowNumber := ir.1 + 1, data := ir.2, totalValue := rowWeight ir.2 })

/-- The comparator `(a, b) => b.totalValue - a.totalValue` as the boolean
"a may stay before b" test (comparator result `<= 0`). -/
def sortLE (a b : ValuedRow) : Bool := decide (b.totalValue ≤ a.totalValue)

/-- The sort at line 116. `Array.prototype.sort` is stable per the ECMAScript
specification, so it is modelled by the stable `List.mergeSort`. -/
def sortDesc (l : List ValuedRow) : List ValuedRow := l.mergeSort sortLE

/-- The `metrics` object of a row analysis. -/
structure Metrics where
  totalValue : ℚ
  cumulativePercentage : ℚ
  contribution : ℚ
deriving DecidableEq

/-- One element of the `rowAnalyses` output array. -/
structure RowAnalysis where
  rowNumber : Nat
  data : Row
  paretoScore : ℚ
  classification : String
  metrics : Metrics
  recommendations : List String
deriving DecidableEq

/-- JS `Number.prototype.toFixed(1)` on the idealised rational value: the
integer n with n/10 closest to the value (the larger n on ties), rendered
with exactly one digit after the decimal point. -/
def qToFixed1 (q : ℚ) : String :=
  let n : Int := ⌊q * 10 + 1 / 2⌋
  let s := toString n.natAbs
  let s := if s.length = 1 then "0" ++ s else s
  (if n < 0 then "-" else "") ++ s.dropRight 1 ++ "." ++ s.takeRight 1

/-- Transcription of `generateRecommendations` (lines 177-231). Only the
`totalValue` field of the row argument is read, so it is passed directly. -/
def generateRecommendations (rowTotalValue : ℚ) (classification : String)
    (contribution cumulativePercentage : ℚ) : List String :=
  let recs : List String :=
    if classification = "Alta Prioridad" then
      ["Esta línea es crítica: representa el " ++ qToFixed1 contribution ++ "% del valor total",
       "Priorizar recursos y atención inmediata en este elemento",
       "Implementar seguimiento continuo y métricas de rendimiento"] ++
      (if rowTotalValue > 0 then
        ["Buscar oportunidades de optimización para maximizar el retorno"] else [])
    else if classification = "Media Prioridad" then
      ["Contribuye con " ++ qToFixed1 contribution ++ "% del valor total",
       "Mantener seguimiento regular y considerar para optimización secundaria",
       "Evaluar si puede mejorarse para entrar en el grupo de alta prioridad"]
    else
      ["Impacto limitado: " ++ qToFixed1 contribution ++ "% del valor total",
       "Considerar automatización o simplificación de procesos",
       "Evaluar si los recursos asignados son proporcionales al impacto"]
  recs ++ (if cumulativePercentage ≤ 20 then
    ["⭐ Top 20%: Este elemento es de los más valiosos del conjunto"] else [])

/-- The classification branch at lines 127-137: tier label and score bonus
from the cumulative percentage alone (inclusive bounds at 80 and 95). -/
def classifyTier (cumulativePercentage : ℚ) : String × ℚ :=
  if cumulativePercentage ≤ 80 then ("Alta Prioridad", 30)
  else if cumulativePercentage ≤ 95 then ("Media Prioridad", 15)
  else ("Baja Prioridad", 0)

/-- The guarded percentage `grandTotal > 0 ? value / grandTotal * 100 : 0`. -/
def share (grandTotal value : ℚ) : ℚ :=
  if grandTotal > 0 then value / grandTotal * 100 else 0

/-- The body of the map at lines 122-159, for one row, `cumulativeValue`
already including this row's `totalValue`. -/
def mkRowAnalysis (grandTotal cumulativeValue : ℚ) (row : ValuedRow) : RowAnalysis :=
  let contribution := share grandTotal row.totalValue
  let cumulativePercentage := share grandTotal cumulativeValue
  let tier := classifyTier cumulativePercentage
  { rowNumber := row.rowNumber
    data := row.data
    paretoScore := contribution + tier.2
    classification := tier.1
    metrics :=
      { totalValue := row.totalValue
        cumulativePercentage := cumulativePercentage
        contribution := contribution }
    recommendations :=
      generateRecommendations row.totalValue tier.1 contribution cumulativePercentage }

/-- The cumulative map at lines 120-159: the running `cumulativeValue` is
threaded through the sorted list, each row's analysis being built after the
running value has absorbed that row's `totalValue`. -/
def analyzeRows (grandTotal : ℚ) : ℚ → List ValuedRow → List RowAnalysis
  | _, [] => []
  | cum, r :: rest =>
    mkRowAnalysis grandTotal (cum + r.totalValue) r ::
      analyzeRows grandTotal (cum + r.totalValue) rest

/-- The `summary` object of the report. -/
structure Summary where
  totalRows : Nat
  highPriority : Nat
  mediumPriority : Nat
  lowPriority : Nat
  totalValue : ℚ
deriving DecidableEq

/-- The full `AnalysisResult` report. -/
structure AnalysisResult where
  summary : Summary
  rowAnalyses : List RowAnalysis
  paretoThreshold : ℚ
deriving DecidableEq

/-- Transcription of `performParetoAnalysis` (lines 93-175). -/
def performParetoAnalysis (rows : List Row) : AnalysisResult :=
  let rowsWithValues := sortDesc (valueRows rows)
  let grandTotal := rowsWithValues.foldl (fun sum row => sum + row.totalValue) 0
  let rowAnalyses := analyzeRows grandTotal 0 rowsWithValues
  { summary :=
    { totalRows := rowAnalyses.length
      highPriority := (rowAnalyses.filter (fun r => r.classification = "Alta Prioridad")).length
      mediumPriority := (rowAnalyses.filter (fun r => r.classification = "Media Prioridad")).length
      lowPriority := (rowAnalyses.filter (fun r => r.classification = "Baja Prioridad")).length
      totalValue := grandTotal }
    rowAnalyses := rowAnalyses
    paretoThreshold := 80 }

/-- The analysis path of the POST handler once the CSV text is in hand
(lines 54-64): the `EmptyInput` error is the message thrown at line 58 when
parsing yields zero rows. -/
def analyze (csvText : String) : Except String AnalysisResult :=
  let rows := parseCSV csvText
  if rows.length = 0 then Except.error "La hoja de cálculo está vacía"
  else Except.ok (performParetoAnalysis rows)

/-- A concrete report row used when instantiating general theorems: the single
row analysis produced for the input `"v\n10"`. -/
def sampleLowRow : RowAnalysis :=
  { rowNumber := 1
    data := [("v", "10")]
    paretoScore := 100
    classification := "Baja Prioridad"
    metrics := { totalValue := 10, cumulativePercentage := 100, contribution := 100 }
    recommendations :=
      ["Impacto limitado: 100.0% del valor total",
       "Considerar automatización o simplificación de procesos",
       "Evaluar si los recursos asignados son proporcionales al impacto"] }

/-! Reducibility adjustments so that concrete runs of the pipeline can be
checked by kernel evaluation. -/

attribute [local semireducible] Rat.add Rat.mul Rat.inv Rat.sub

unseal Nat.gcd List.merge List.mergeSort

/-! Helper lemmas about the embedded definitions. -/

theorem mkRowAnalysis_rowNumber (g c : ℚ) (v : ValuedRow) :
    (mkRowAnalysis g c v).rowNumber = v.rowNumber := rfl

theorem mkRowAnalysis_data (g c : ℚ) (v : ValuedRow) :
    (mkRowAnalysis g c v).data = v.data := rfl

theorem mkRowAnalysis_totalValue (g c : ℚ) (v : ValuedRow) :
    (mkRowAnalysis g c v).metrics.totalValue = v.totalValue := rfl

theorem mkRowAnalysis_contribution (g c : ℚ) (v : ValuedRow) :
    (mkRowAnalysis g c v).metrics.contribution = share g v.totalValue := rfl

theorem mkRowAnalysis_cumulative (g c : ℚ) (v : ValuedRow) :
    (mkRowAnalysis g c v).metrics.cumulativePercentage = share g c := rfl

theorem mkRowAnalysis_classification (g c : ℚ) (v : ValuedRow) :
    (mkRowAnalysis g c v).classification = (classifyTier (share g c)).1 := rfl

theorem mkRowAnalysis_paretoScore (g c : ℚ) (v : ValuedRow) :
    (mkRowAnalysis g c v).paretoScore = share g v.totalValue + (classifyTier (share g c)).2 := rfl

theorem rowWeight_eq_sum (row : Row) :
    rowWeight row =
      ((row.filterMap (fun kv => jsParseFloat (numericStrip kv.2))).map (fun q => |q|)).sum := by
  suffices h : ∀ (l : Row) (acc : ℚ),
      l.foldl (fun acc kv =>
        match jsParseFloat (numericStrip kv.2) with
        | some q => acc + |q|
        | none => acc) acc =
      acc + ((l.filterMap (fun kv => jsParseFloat (numericStrip kv.2))).map (fun q => |q|)).sum by
    simpa [rowWeight] using h row 0
  intro l
  induction l with
  | nil => intro acc; simp
  | cons kv t ih =>
    intro acc
    cases h : jsParseFloat (numericStrip kv.2) with
    | none => simp [List.foldl_cons, List.filterMap_cons, h, ih]
    | some q => simp [List.foldl_cons, List.filterMap_cons, h, ih, add_assoc]

theorem rowWeight_nonneg (row : Row) : 0 ≤ rowWeight row := by
  rw [rowWeight_eq_sum]
  apply List.sum_nonneg
  intro x hx
  rcases List.mem_map.mp hx with ⟨q, _, rfl⟩
  exact abs_nonneg q

theorem sortLE_trans : ∀ a b c : ValuedRow, sortLE a b → sortLE b c → sortLE a c := by
  intro a b c hab hbc
  simp only [sortLE, decide_eq_true_eq] at *
  exact le_trans hbc hab

theorem sortLE_total : ∀ a b : ValuedRow, sortLE a b || sortLE b a := by
  intro a b
  simp only [sortLE]
  rcases le_total a.totalValue b.totalValue with h | h <;> simp [h]

theorem sortDesc_perm (l : List ValuedRow) : List.Perm (sortDesc l) l :=
  List.mergeSort_perm l sortLE

theorem sortDesc_pairwise (l : List ValuedRow) :
    (sortDesc l).Pairwise (fun a b => b.totalValue ≤ a.totalValue) := by
  have h := List.sorted_mergeSort sortLE_trans sortLE_total l
  exact h.imp (fun hab => by simpa [sortLE] using hab)

theorem share_mono (g : ℚ) {x y : ℚ} (h : x ≤ y) : share g x ≤ share g y := by
  unfold share
  split_ifs with hg
  · exact mul_le_mul_of_nonneg_right ((div_le_div_iff_of_pos_right hg).mpr h) (by norm_num)
  · exact le_refl 0

theorem share_add (g x y : ℚ) : share g (x + y) = share g x + share g y := by
  unfold share
  split_ifs with hg
  · ring
  · ring

theorem share_zero (g : ℚ) : share g 0 = 0 := by
  unfold share
  split_ifs <;> simp

theorem share_self (g : ℚ) (hg : 0 < g) : share g g = 100 := by
  unfold share
  rw [if_pos hg, div_self (ne_of_gt hg), one_mul]

theorem share_of_nonpos (g : ℚ) (hg : ¬ g > 0) (x : ℚ) : share g x = 0 := by
  unfold share
  rw [if_neg hg]

theorem classifyTier_high {cum : ℚ} (h : cum ≤ 80) :
    classifyTier cum = ("Alta Prioridad", 30) := by
  unfold classifyTier
  rw [if_pos h]

theorem classifyTier_medium {cum : ℚ} (h80 : ¬ cum ≤ 80) (h95 : cum ≤ 95) :
    classifyTier cum = ("Media Prioridad", 15) := by
  unfold classifyTier
  rw [if_neg h80, if_pos h95]

theorem classifyTier_low {cum : ℚ} (h95 : ¬ cum ≤ 95) :
    classifyTier cum = ("Baja Prioridad", 0) := by
  unfold classifyTier
  rw [if_neg (fun h => h95 (le_trans h (by norm_num))), if_neg h95]

theorem classifyTier_cases (cum : ℚ) :
    (classifyTier cum).1 = "Alta Prioridad" ∨ (classifyTier cum).1 = "Media Prioridad" ∨
      (classifyTier cum).1 = "Baja Prioridad" := by
  unfold classifyTier
  split_ifs <;> simp

theorem analyzeRows_length (g c : ℚ) (l : List ValuedRow) :
    (analyzeRows g c l).length = l.length := by
  induction l generalizing c with
  | nil => rfl
  | cons r t ih => simp [analyzeRows, ih]

theorem analyzeRows_map_rowData (g c : ℚ) (l : List ValuedRow) :
    (analyzeRows g c l).map (fun r => (r.rowNumber, r.data)) =
      l.map (fun v => (v.rowNumber, v.data)) := by
  induction l generalizing c with
  | nil => rfl
  | cons r t ih => simp [analyzeRows, ih, mkRowAnalysis_rowNumber, mkRowAnalysis_data]

theorem analyzeRows_map_rowTotal (g c : ℚ) (l : List ValuedRow) :
    (analyzeRows g c l).map (fun r => (r.rowNumber, r.metrics.totalValue)) =
      l.map (fun v => (v.rowNumber, v.totalValue)) := by
  induction l generalizing c with
  | nil => rfl
  | cons r t ih => simp [analyzeRows, ih, mkRowAnalysis_rowNumber, mkRowAnalysis_totalValue]

theorem analyzeRows_map_totalValue (g c : ℚ) (l : List ValuedRow) :
    (analyzeRows g c l).map (fun r => r.metrics.totalValue) =
      l.map (fun v => v.totalValue) := by
  induction l generalizing c with
  | nil => rfl
  | cons r t ih => simp [analyzeRows, ih, mkRowAnalysis_totalValue]

theorem analyzeRows_map_contribution (g c : ℚ) (l : List ValuedRow) :
    (analyzeRows g c l).map (fun r => r.metrics.contribution) =
      l.map (fun v => share g v.totalValue) := by
  induction l generalizing c with
  | nil => rfl
  | cons r t ih => simp [analyzeRows, ih, mkRowAnalysis_contribution]

theorem analyzeRows_data_eq_weight (g c : ℚ) (l : List ValuedRow)
    (h : ∀ v ∈ l, v.totalValue = rowWeight v.data) :
    (analyzeRows g c l).map (fun r => r.metrics.totalValue) =
      (analyzeRows g c l).map (fun r => rowWeight r.data) := by
  induction l generalizing c with
  | nil => rfl
  | cons r t ih =>
    simp only [analyzeRows, List.map_cons, mkRowAnalysis_totalValue, mkRowAnalysis_data]
    rw [h r (List.mem_cons_self r t), ih _ (fun v hv => h v (List.mem_cons_of_mem r hv))]

theorem mem_analyzeRows {g c : ℚ} {l : List ValuedRow} {r : RowAnalysis}
    (h : r ∈ analyzeRows g c l) : ∃ c' v, v ∈ l ∧ r = mkRowAnalysis g c' v := by
  induction l generalizing c with
  | nil => cases h
  | cons x t ih =>
    rcases List.mem_cons.mp h with h1 | h1
    · exact ⟨c + x.totalValue, x, List.mem_cons_self x t, h1⟩
    · rcases ih h1 with ⟨c', v, hv, he⟩
      exact ⟨c', v, List.mem_cons_of_mem x hv, he⟩

theorem analyzeRows_cum_chain (g c : ℚ) (l : List ValuedRow)
    (h : ∀ v ∈ l, 0 ≤ v.totalValue) :
    List.Chain' (· ≤ ·)
      ((analyzeRows g c l).map (fun r => r.metrics.cumulativePercentage)) := by
  induction l generalizing c with
  | nil => exact List.chain'_nil
  | cons r t ih =>
    cases t with
    | nil => simp [analyzeRows]
    | cons r2 t2 =>
      have hstep : share g (c + r.totalValue) ≤ share g (c + r.totalValue + r2.totalValue) := by
        apply share_mono
        have := h r2 (List.mem_cons_of_mem r (List.mem_cons_self r2 t2))
        linarith
      have htail := ih (c + r.totalValue) (fun v hv => h v (List.mem_cons_of_mem r hv))
      simp only [analyzeRows, List.map_cons, mkRowAnalysis_cumulative] at htail ⊢
      exact List.chain'_cons.mpr ⟨hstep, htail⟩

theorem analyzeRows_cum_getLast (g : ℚ) (c : ℚ) (l : List ValuedRow) (h : l ≠ []) :
    ((analyzeRows g c l).map (fun r => r.metrics.cumulativePercentage)).getLast? =
      some (share g (c + (l.map (fun v => v.totalValue)).sum)) := by
  induction l generalizing c with
  | nil => exact absurd rfl h
  | cons r t ih =>
    cases t with
    | nil => simp [analyzeRows, mkRowAnalysis_cumulative]
    | cons r2 t2 =>
      have hne : r2 :: t2 ≠ ([] : List ValuedRow) := by simp
      simp only [analyzeRows, List.map_cons, List.getLast?_cons_cons]
      have := ih (c + r.totalValue) hne
      simp only [analyzeRows, List.map_cons] at this
      rw [this]
      congr 2
      simp only [List.sum_cons]
      ring

theorem analyzeRows_cum_zero {g : ℚ} (hg : ¬ g > 0) (c : ℚ) (l : List ValuedRow) :
    ∀ r ∈ analyzeRows g c l, r.metrics.cumulativePercentage = 0 := by
  intro r hr
  rcases mem_analyzeRows hr with ⟨c', v, _, rfl⟩
  rw [mkRowAnalysis_cumulative]
  exact share_of_nonpos g hg c'

theorem foldl_add_totalValue (l : List ValuedRow) (a : ℚ) :
    l.foldl (fun sum row => sum + row.totalValue) a =
      a + (l.map (fun v => v.totalValue)).sum := by
  induction l generalizing a with
  | nil => simp
  | cons r t ih => simp [List.foldl_cons, ih, add_assoc]

theorem sum_share_map (g : ℚ) (l : List ValuedRow) :
    (l.map (fun v => share g v.totalValue)).sum =
      share g ((l.map (fun v => v.totalValue)).sum) := by
  induction l with
  | nil => simp [share_zero]
  | cons r t ih => simp [List.map_cons, List.sum_cons, ih, share_add]

theorem valueRows_totalValue (rows : List Row) :
    ∀ v ∈ valueRows rows, v.totalValue = rowWeight v.data := by
  intro v hv
  rcases List.mem_map.mp hv with ⟨ir, _, rfl⟩
  rfl

theorem valueRows_nonneg (rows : List Row) :
    ∀ v ∈ valueRows rows, 0 ≤ v.totalValue := by
  intro v hv
  rw [valueRows_totalValue rows v hv]
  exact rowWeight_nonneg v.data

theorem fst_lt_of_mem_enumFrom {α : Type} {p : Nat × α} :
    ∀ {n : Nat} {l : List α}, p ∈ List.enumFrom n l → n ≤ p.1 := by
  intro n l
  induction l generalizing n with
  | nil => intro h; cases h
  | cons x t ih =>
    intro h
    rcases List.mem_cons.mp h with h1 | h1
    · rw [h1]
    · exact le_trans (Nat.le_succ n) (ih h1)

theorem snd_mem_of_mem_enumFrom {α : Type} {p : Nat × α} :
    ∀ {n : Nat} {l : List α}, p ∈ List.enumFrom n l → p.2 ∈ l := by
  intro n l
  induction l generalizing n with
  | nil => intro h; cases h
  | cons x t ih =>
    intro h
    rcases List.mem_cons.mp h with h1 | h1
    · rw [h1]
      exact List.mem_cons_self x t
    · exact List.mem_cons_of_mem x (ih h1)

theorem valueRows_data_mem (rows : List Row) :
    ∀ v ∈ valueRows rows, v.data ∈ rows := by
  intro v hv
  rcases List.mem_map.mp hv with ⟨ir, hir, rfl⟩
  exact snd_mem_of_mem_enumFrom hir

theorem pairwise_fst_lt_enumFrom {α : Type} (n : Nat) (l : List α) :
    (List.enumFrom n l).Pairwise (fun a b => a.1 < b.1) := by
  induction l generalizing n with
  | nil => exact List.Pairwise.nil
  | cons x t ih =>
    rw [List.enumFrom_cons]
    refine List.Pairwise.cons ?_ (ih (n + 1))
    intro p hp
    exact lt_of_lt_of_le (Nat.lt_succ_self n) (fst_lt_of_mem_enumFrom hp)

theorem valueRows_pairwise_rowNumber (rows : List Row) :
    (valueRows rows).Pairwise (fun a b => a.rowNumber < b.rowNumber) := by
  unfold valueRows
  refine List.Pairwise.map _ ?_ (pairwise_fst_lt_enumFrom 0 rows)
  intro a b h
  simpa using h

theorem valueRows_nodup (rows : List Row) : (valueRows rows).Nodup :=
  (valueRows_pairwise_rowNumber rows).imp
    (fun {a _} h => fun e => absurd (e ▸ h) (lt_irrefl a.rowNumber))

theorem sublist_pair_of_mem {α : Type} {a b : α} {l : List α}
    (ha : a ∈ l) (hb : b ∈ l) (hne : a ≠ b) :
    List.Sublist [a, b] l ∨ List.Sublist [b, a] l := by
  induction l with
  | nil => cases ha
  | cons x t ih =>
    rcases eq_or_ne a x with rfl | hax
    · have hbt : b ∈ t := by
        rcases List.mem_cons.mp hb with h1 | h1
        · exact absurd h1.symm hne
        · exact h1
      exact Or.inl (List.Sublist.cons₂ a (List.singleton_sublist.mpr hbt))
    · rcases eq_or_ne b x with rfl | hbx
      · have hat : a ∈ t := by
          rcases List.mem_cons.mp ha with h1 | h1
          · exact absurd h1 hax
          · exact h1
        exact Or.inr (List.Sublist.cons₂ b (List.singleton_sublist.mpr hat))
      · have hat : a ∈ t := by
          rcases List.mem_cons.mp ha with h1 | h1
          · exact absurd h1 hax
          · exact h1
        have hbt : b ∈ t := by
          rcases List.mem_cons.mp hb with h1 | h1
          · exact absurd h1 hbx
          · exact h1
        rcases ih hat hbt with h | h
        · exact Or.inl (h.cons x)
        · exact Or.inr (h.cons x)

theorem pair_sublist_antisymm {α : Type} {a b : α} :
    ∀ {l : List α}, l.Nodup → List.Sublist [a, b] l → List.Sublist [b, a] l → a = b := by
  intro l
  induction l with
  | nil => intro _ h1; cases h1
  | cons x t ih =>
    intro hnd h1 h2
    have hxt : x ∉ t := (List.nodup_cons.mp hnd).1
    have hndt : t.Nodup := (List.nodup_cons.mp hnd).2
    cases h1 with
    | cons _ h1' =>
      cases h2 with
      | cons _ h2' => exact ih hndt h1' h2'
      | cons₂ _ h2' => exact absurd (h1'.subset (by simp)) hxt
    | cons₂ _ h1' =>
      cases h2 with
      | cons _ h2' => exact absurd (h2'.subset (by simp)) hxt
      | cons₂ _ h2' => rfl

theorem sortDesc_stable_pairwise (rows : List Row) :
    (sortDesc (valueRows rows)).Pairwise
      (fun a b => a.totalValue = b.totalValue → a.rowNumber < b.rowNumber) := by
  rw [List.pairwise_iff_forall_sublist]
  intro a b hsub heq
  have hnd : (sortDesc (valueRows rows)).Nodup :=
    ((sortDesc_perm (valueRows rows)).nodup_iff).mpr (valueRows_nodup rows)
  have hne : a ≠ b := by
    intro e
    subst e
    exact (List.pairwise_iff_forall_sublist.mp hnd) hsub rfl
  have ha : a ∈ valueRows rows := List.mem_mergeSort.mp (hsub.subset (by simp))
  have hb : b ∈ valueRows rows := List.mem_mergeSort.mp (hsub.subset (by simp))
  rcases sublist_pair_of_mem ha hb hne with h | h
  · exact List.pairwise_iff_forall_sublist.mp (valueRows_pairwise_rowNumber rows) h
  · exfalso
    have hle : sortLE b a := by simp [sortLE, heq]
    have hba := List.pair_sublist_mergeSort sortLE_trans sortLE_total hle h
    exact hne (pair_sublist_antisymm hnd hsub hba)

theorem filter_three_length (l : List RowAnalysis)
    (h : ∀ r ∈ l, r.classification = "Alta Prioridad" ∨ r.classification = "Media Prioridad" ∨
      r.classification = "Baja Prioridad") :
    (l.filter (fun r => r.classification = "Alta Prioridad")).length +
      (l.filter (fun r => r.classification = "Media Prioridad")).length +
      (l.filter (fun r => r.classification = "Baja Prioridad")).length = l.length := by
  induction l with
  | nil => simp
  | cons r t ih =>
    have ht := ih (fun x hx => h x (List.mem_cons_of_mem r hx))
    rcases h r (List.mem_cons_self r t) with hc | hc | hc <;>
      simp [List.filter_cons, hc] <;> omega

theorem string_head_ne {s t : String} {c1 c2 : Char} (h1 : s.data.head? = some c1)
    (h2 : t.data.head? = some c2) (hne : c1 ≠ c2) : s ≠ t := by
  intro e
  rw [e, h2] at h1
  exact hne (Option.some.inj h1).symm

theorem append_head (a b : String) (c : Char) (h : a.data.head? = some c) :
    (a ++ b).data.head? = some c := by
  rw [String.data_append, List.head?_append, h]
  rfl

theorem contrib_msg_ne_marker (a x b : String) (c : Char) (ha : a.data.head? = some c)
    (hc : c ≠ '⭐') :
    a ++ x ++ b ≠ "⭐ Top 20%: Este elemento es de los más valiosos del conjunto" :=
  string_head_ne (append_head _ _ _ (append_head _ _ _ ha)) rfl hc

theorem chain'_of_map {α β : Type} (f : α → β) (R : β → β → Prop) {l : List α}
    (h : List.Chain' R (l.map f)) : List.Chain' (fun a b => R (f a) (f b)) l :=
  (List.chain'_map f).mp h

theorem performParetoAnalysis_rowAnalyses (rows : List Row) :
    (performParetoAnalysis rows).rowAnalyses =
      analyzeRows ((sortDesc (valueRows rows)).foldl (fun sum row => sum + row.totalValue) 0)
        0 (sortDesc (valueRows rows)) := rfl

theorem performParetoAnalysis_totalValue (rows : List Row) :
    (performParetoAnalysis rows).summary.totalValue =
      (sortDesc (valueRows rows)).foldl (fun sum row => sum + row.totalValue) 0 := rfl

theorem performParetoAnalysis_totalRows (rows : List Row) :
    (performParetoAnalysis rows).summary.totalRows =
      (performParetoAnalysis rows).rowAnalyses.length := rfl

theorem performParetoAnalysis_high (rows : List Row) :
    (performParetoAnalysis rows).summary.highPriority =
      ((performParetoAnalysis rows).rowAnalyses.filter
        (fun r => r.classification = "Alta Prioridad")).length := rfl

theorem performParetoAnalysis_medium (rows : List Row) :
    (performParetoAnalysis rows).summary.mediumPriority =
      ((performParetoAnalysis rows).rowAnalyses.filter
        (fun r => r.classification = "Media Prioridad")).length := rfl

theorem performParetoAnalysis_low (rows : List Row) :
    (performParetoAnalysis rows).summary.lowPriority =
      ((performParetoAnalysis rows).rowAnalyses.filter
        (fun r => r.classification = "Baja Prioridad")).length := rfl

theorem grandTotal_eq_sum (rows : List Row) :
    (sortDesc (valueRows rows)).foldl (fun sum row => sum + row.totalValue) 0 =
      ((sortDesc (valueRows rows)).map (fun v => v.totalValue)).sum := by
  rw [foldl_add_totalValue, zero_add]

theorem parseCSV_length (t : String) :
    (parseCSV t).length = ((splitChar '\n' t.data).filter nonBlank).length - 1 := by
  unfold parseCSV
  cases hl : (splitChar '\n' t.data).filter nonBlank with
  | nil => rfl
  | cons hd tl => simp

/-! The claims. -/

/-- C2: on the input `"name,val\nA,10\nB,90"` the analysis produces exactly two
records, ranked B (row 2, weight 90) then A (row 1, weight 10), with
contribution shares 90 and 10, cumulative shares 90 and 100, and
classifications "Media Prioridad" (for B, since 90 > 80) and
"Baja Prioridad" (for A, since 100 > 95). -/
theorem claim_C2 :
    (performParetoAnalysis (parseCSV "name,val\nA,10\nB,90")).rowAnalyses.map
      (fun r => (r.rowNumber, r.data, r.metrics.totalValue, r.metrics.contribution,
        r.metrics.cumulativePercentage, r.classification)) =
    [(2, [("name", "B"), ("val", "90")], 90, 90, 90, "Media Prioridad"),
     (1, [("name", "A"), ("val", "10")], 10, 10, 100, "Baja Prioridad")] := by
  decide

/-- C5: the analysis raises the empty-input error exactly when parsing yields
zero records, returns a report whenever at least one record is parsed, and in
particular errors on any text with at most one non-blank line (only a header,
or nothing at all). -/
theorem claim_C5 (t : String) :
    (parseCSV t = [] → analyze t = Except.error "La hoja de cálculo está vacía") ∧
    (parseCSV t ≠ [] → ∃ A, analyze t = Except.ok A) ∧
    (((splitChar '\n' t.data).filter nonBlank).length ≤ 1 →
      analyze t = Except.error "La hoja de cálculo está vacía") := by
  refine ⟨?_, ?_, ?_⟩
  · intro h
    simp [analyze, h]
  · intro h
    refine ⟨performParetoAnalysis (parseCSV t), ?_⟩
    unfold analyze
    rw [if_neg (fun hz => h (List.length_eq_zero.mp hz))]
  · intro h
    have hz : (parseCSV t).length = 0 := by
      rw [parseCSV_length]
      omega
    simp [analyze, List.length_eq_zero.mp hz]

/-- Witness for C5 at the header-only input `"name,val"`. -/
theorem claim_C5_witness :
    analyze "name,val" = Except.error "La hoja de cálculo está vacía" :=
  (claim_C5 "name,val").1 (by decide)

/-- C6: a record's weight is the sum of the absolute values of the cell values
that successfully convert to numbers after stripping every character other
than digits, dots and minus signs; a record with no convertible cell weighs 0;
and the Scenario C input `"id,name\n1,Alice"` yields the single weight 1,
"Alice" being ignored. -/
theorem claim_C6 :
    (∀ row : Row, rowWeight row =
      ((row.filterMap (fun kv => jsParseFloat (numericStrip kv.2))).map
        (fun q => |q|)).sum) ∧
    (∀ row : Row, (∀ kv ∈ row, jsParseFloat (numericStrip kv.2) = none) →
      rowWeight row = 0) ∧
    (performParetoAnalysis (parseCSV "id,name\n1,Alice")).rowAnalyses.map
      (fun r => r.metrics.totalValue) = [1] := by
  refine ⟨rowWeight_eq_sum, ?_, by decide⟩
  intro row h
  rw [rowWeight_eq_sum, List.filterMap_eq_nil_iff.mpr h]
  rfl

/-- Witness for C6: a row whose only cell is non-numeric weighs 0. -/
theorem claim_C6_witness : rowWeight [("a", "xy")] = 0 :=
  claim_C6.2.1 [("a", "xy")] (by decide)

/-- C4 counterexample: on `"id,name\nx,Alice"` no cell of the single data row
converts to a number and the total value is 0, yet the record is classified
"Alta Prioridad" (High), not the tier Low ("Baja Prioridad") asserted by the
claim. -/
theorem claim_C4_counterexample :
    (parseCSV "id,name\nx,Alice").map
      (fun row => row.filterMap (fun kv => jsParseFloat (numericStrip kv.2))) = [[]] ∧
    (performParetoAnalysis (parseCSV "id,name\nx,Alice")).summary.totalValue = 0 ∧
    (performParetoAnalysis (parseCSV "id,name\nx,Alice")).rowAnalyses.map
      (fun r => r.classification) = ["Alta Prioridad"] := by
  decide

theorem analyzeRows_zero_map (c : ℚ) (l : List ValuedRow) :
    (analyzeRows 0 c l).map
      (fun r => (r.metrics.contribution, r.metrics.cumulativePercentage, r.classification)) =
      l.map (fun _ => ((0 : ℚ), (0 : ℚ), "Alta Prioridad")) := by
  induction l generalizing c with
  | nil => rfl
  | cons r t ih =>
    have hz : ¬ (0:ℚ) > 0 := lt_irrefl 0
    simp [analyzeRows, ih, mkRowAnalysis_contribution, mkRowAnalysis_cumulative,
      mkRowAnalysis_classification, share_of_nonpos 0 hz,
      classifyTier_high (by norm_num : (0:ℚ) ≤ 80)]

/-- C4 (amended): for a header plus at least one data row none of whose fields
converts to a number, the analysis yields totalValue 0, every record has
contribution share 0 and cumulative share 0 and is classified
"Alta Prioridad" (High, since the cumulative share 0 satisfies the inclusive
bound 0 <= 80 — not Low as originally claimed), and the report assembles
without error. -/
theorem claim_C4_amended (t : String) (hne : parseCSV t ≠ [])
    (h : ∀ row ∈ parseCSV t, ∀ kv ∈ row, jsParseFloat (numericStrip kv.2) = none) :
    (performParetoAnalysis (parseCSV t)).summary.totalValue = 0 ∧
    (performParetoAnalysis (parseCSV t)).rowAnalyses.map
      (fun r => (r.metrics.contribution, r.metrics.cumulativePercentage, r.classification)) =
      (parseCSV t).map (fun _ => ((0 : ℚ), (0 : ℚ), "Alta Prioridad")) ∧
    analyze t = Except.ok (performParetoAnalysis (parseCSV t)) := by
  have hweights : ∀ v ∈ sortDesc (valueRows (parseCSV t)), v.totalValue = 0 := by
    intro v hv
    have hv' : v ∈ valueRows (parseCSV t) := (sortDesc_perm _).subset hv
    rw [valueRows_totalValue _ v hv']
    have hdata : v.data ∈ parseCSV t := valueRows_data_mem _ v hv'
    rw [rowWeight_eq_sum, List.filterMap_eq_nil_iff.mpr (h v.data hdata)]
    rfl
  have hG : (sortDesc (valueRows (parseCSV t))).foldl
      (fun sum row => sum + row.totalValue) 0 = 0 := by
    rw [grandTotal_eq_sum]
    apply List.sum_eq_zero
    intro x hx
    rcases List.mem_map.mp hx with ⟨v, hv, rfl⟩
    exact hweights v hv
  refine ⟨?_, ?_, ?_⟩
  · rw [performParetoAnalysis_totalValue, hG]
  · rw [performParetoAnalysis_rowAnalyses, hG, analyzeRows_zero_map,
      List.map_const', List.map_const']
    congr 1
    rw [(sortDesc_perm _).length_eq]
    simp [valueRows]
  · unfold analyze
    rw [if_neg (fun hz => hne (List.length_eq_zero.mp hz))]

theorem classifyTier_full (contrib cum : ℚ) :
    (cum ≤ 80 → (classifyTier cum).1 = "Alta Prioridad" ∧
      contrib + (classifyTier cum).2 = contrib + 30) ∧
    (80 < cum → cum ≤ 95 → (classifyTier cum).1 = "Media Prioridad" ∧
      contrib + (classifyTier cum).2 = contrib + 15) ∧
    (95 < cum → (classifyTier cum).1 = "Baja Prioridad" ∧
      contrib + (classifyTier cum).2 = contrib) ∧
    (cum = 80 → (classifyTier cum).1 ≠ "Baja Prioridad") ∧
    (cum = 95 → (classifyTier cum).1 ≠ "Baja Prioridad") := by
  refine ⟨?_, ?_, ?_, ?_, ?_⟩
  · intro h
    rw [classifyTier_high h]
    exact ⟨rfl, rfl⟩
  · intro h80 h95
    rw [classifyTier_medium (not_le.mpr h80) h95]
    exact ⟨rfl, rfl⟩
  · intro h95
    rw [classifyTier_low (not_le.mpr h95)]
    exact ⟨rfl, by ring⟩
  · intro h
    rw [classifyTier_high (le_of_eq h)]
    simp
  · intro h
    have h80 : ¬ cum ≤ 80 := by
      rw [h]
      norm_num
    rw [classifyTier_medium h80 (le_of_eq h)]
    simp

/-- C1: every record of every report is classified solely from its cumulative
share with inclusive upper bounds — at most 80 gives "Alta Prioridad" (High)
with bonus 30, above 80 and at most 95 gives "Media Prioridad" (Medium) with
bonus 15, above 95 gives "Baja Prioridad" (Low) with bonus 0 — the score is
the contribution share plus the bonus, and a record whose cumulative share is
exactly 80 or exactly 95 is never classified Low. -/
theorem claim_C1 (rows : List Row) (r : RowAnalysis)
    (hr : r ∈ (performParetoAnalysis rows).rowAnalyses) :
    (r.metrics.cumulativePercentage ≤ 80 →
      r.classification = "Alta Prioridad" ∧
        r.paretoScore = r.metrics.contribution + 30) ∧
    (80 < r.metrics.cumulativePercentage → r.metrics.cumulativePercentage ≤ 95 →
      r.classification = "Media Prioridad" ∧
        r.paretoScore = r.metrics.contribution + 15) ∧
    (95 < r.metrics.cumulativePercentage →
      r.classification = "Baja Prioridad" ∧ r.paretoScore = r.metrics.contribution) ∧
    (r.metrics.cumulativePercentage = 80 → r.classification ≠ "Baja Prioridad") ∧
    (r.metrics.cumulativePercentage = 95 → r.classification ≠ "Baja Prioridad") := by
  rw [performParetoAnalysis_rowAnalyses] at hr
  rcases mem_analyzeRows hr with ⟨c', v, _, rfl⟩
  rw [mkRowAnalysis_classification, mkRowAnalysis_paretoScore, mkRowAnalysis_cumulative,
    mkRowAnalysis_contribution]
  exact classifyTier_full _ _

/-- Witness for C1: the single record of the input `"v\n10"` has cumulative
share 100 and is classified "Baja Prioridad" with score equal to its
contribution. -/
theorem claim_C1_witness :
    sampleLowRow.classification = "Baja Prioridad" ∧
      sampleLowRow.paretoScore = sampleLowRow.metrics.contribution :=
  (claim_C1 (parseCSV "v\n10") sampleLowRow (by decide)).2.2.1 (by decide)

/-- C3: in every report the cumulative shares are non-decreasing along the
ranked sequence; when the total weight is positive the contribution shares
sum to exactly 100 and the last cumulative share is exactly 100; when the
total weight is 0 the last cumulative share is 0. -/
theorem claim_C3 (rows : List Row) :
    List.Chain' (· ≤ ·)
      ((performParetoAnalysis rows).rowAnalyses.map
        (fun r => r.metrics.cumulativePercentage)) ∧
    (0 < (performParetoAnalysis rows).summary.totalValue →
      ((performParetoAnalysis rows).rowAnalyses.map
        (fun r => r.metrics.contribution)).sum = 100 ∧
      ((performParetoAnalysis rows).rowAnalyses.map
        (fun r => r.metrics.cumulativePercentage)).getLast? = some 100) ∧
    ((performParetoAnalysis rows).summary.totalValue = 0 →
      (performParetoAnalysis rows).rowAnalyses ≠ [] →
      ((performParetoAnalysis rows).rowAnalyses.map
        (fun r => r.metrics.cumulativePercentage)).getLast? = some 0) := by
  refine ⟨?_, ?_, ?_⟩
  · rw [performParetoAnalysis_rowAnalyses]
    exact analyzeRows_cum_chain _ 0 _
      (fun v hv => valueRows_nonneg rows v ((sortDesc_perm _).subset hv))
  · intro hpos
    rw [performParetoAnalysis_totalValue] at hpos
    have hsum := grandTotal_eq_sum rows
    constructor
    · rw [performParetoAnalysis_rowAnalyses, analyzeRows_map_contribution, sum_share_map,
        ← hsum]
      exact share_self _ hpos
    · have hne : sortDesc (valueRows rows) ≠ [] := by
        intro he
        rw [he] at hpos
        simp at hpos
      rw [performParetoAnalysis_rowAnalyses, analyzeRows_cum_getLast _ 0 _ hne, zero_add,
        ← hsum, share_self _ hpos]
  · intro hzero hne
    rw [performParetoAnalysis_totalValue] at hzero
    have hne' : sortDesc (valueRows rows) ≠ [] := by
      intro he
      apply hne
      rw [performParetoAnalysis_rowAnalyses, he]
      rfl
    rw [performParetoAnalysis_rowAnalyses, analyzeRows_cum_getLast _ 0 _ hne', hzero,
      share_of_nonpos 0 (lt_irrefl 0)]

/-- Witness for C3 at `"name,val\nA,10\nB,90"` (positive total) and at
`"id2,name\nz,Bob"` (zero total). -/
theorem claim_C3_witness :
    ((performParetoAnalysis (parseCSV "name,val\nA,10\nB,90")).rowAnalyses.map
      (fun r => r.metrics.contribution)).sum = 100 ∧
    ((performParetoAnalysis (parseCSV "name,val\nA,10\nB,90")).rowAnalyses.map
      (fun r => r.metrics.cumulativePercentage)).getLast? = some 100 ∧
    ((performParetoAnalysis (parseCSV "id2,name\nz,Bob")).rowAnalyses.map
      (fun r => r.metrics.cumulativePercentage)).getLast? = some 0 :=
  ⟨((claim_C3 (parseCSV "name,val\nA,10\nB,90")).2.1 (by decide)).1,
   ((claim_C3 (parseCSV "name,val\nA,10\nB,90")).2.1 (by decide)).2,
   (claim_C3 (parseCSV "id2,name\nz,Bob")).2.2 (by decide) (by decide)⟩

/-- C7: the report rows are ordered by non-increasing weight (ranking order),
the pairs (rowNumber, data) of the output are exactly the input rows tagged
with their 1-based original positions (so rowNumber is the original index,
not the sorted position), and each output row's recorded weight is the weight
of its own original data. -/
theorem claim_C7 (rows : List Row) :
    List.Chain' (fun a b => b.metrics.totalValue ≤ a.metrics.totalValue)
      (performParetoAnalysis rows).rowAnalyses ∧
    List.Perm
      ((performParetoAnalysis rows).rowAnalyses.map (fun r => (r.rowNumber, r.data)))
      (rows.enum.map (fun p => (p.1 + 1, p.2))) ∧
    (performParetoAnalysis rows).rowAnalyses.map (fun r => r.metrics.totalValue) =
      (performParetoAnalysis rows).rowAnalyses.map (fun r => rowWeight r.data) := by
  refine ⟨?_, ?_, ?_⟩
  · rw [performParetoAnalysis_rowAnalyses]
    apply chain'_of_map (fun r : RowAnalysis => r.metrics.totalValue) (fun x y => y ≤ x)
    rw [analyzeRows_map_totalValue]
    exact (List.Pairwise.map (fun v : ValuedRow => v.totalValue)
      (fun a b h => h) (sortDesc_pairwise _)).chain'
  · rw [performParetoAnalysis_rowAnalyses, analyzeRows_map_rowData]
    refine ((sortDesc_perm (valueRows rows)).map
      (fun v : ValuedRow => (v.rowNumber, v.data))).trans ?_
    rw [valueRows, List.map_map]
    exact List.Perm.refl _
  · rw [performParetoAnalysis_rowAnalyses]
    exact analyzeRows_data_eq_weight _ 0 _
      (fun v hv => valueRows_totalValue rows v ((sortDesc_perm _).subset hv))

/-- C9: the descending-weight sort is stable, so any two records of equal
weight appear in the ranked output in ascending original-input order
(ascending rowNumber). -/
theorem claim_C9 (rows : List Row) :
    (performParetoAnalysis rows).rowAnalyses.Pairwise
      (fun a b => a.metrics.totalValue = b.metrics.totalValue →
        a.rowNumber < b.rowNumber) := by
  rw [performParetoAnalysis_rowAnalyses]
  have hmapped : ((sortDesc (valueRows rows)).map
      (fun v => (v.rowNumber, v.totalValue))).Pairwise
      (fun p q => p.2 = q.2 → p.1 < q.1) :=
    List.Pairwise.map _ (fun a b h => h) (sortDesc_stable_pairwise rows)
  rw [← analyzeRows_map_rowTotal ((sortDesc (valueRows rows)).foldl
      (fun sum row => sum + row.totalValue) 0) 0] at hmapped
  exact List.pairwise_map.mp hmapped

/-- C10: whenever the analysis returns a report, the three tier counts add up
to the number of report rows, which is the number of parsed records. -/
theorem claim_C10 (t : String) (A : AnalysisResult) (h : analyze t = Except.ok A) :
    A.summary.highPriority + A.summary.mediumPriority + A.summary.lowPriority =
      A.summary.totalRows ∧
    A.summary.totalRows = (parseCSV t).length := by
  have hA : A = performParetoAnalysis (parseCSV t) := by
    unfold analyze at h
    by_cases hz : (parseCSV t).length = 0
    · rw [if_pos hz] at h
      exact Except.noConfusion h
    · rw [if_neg hz] at h
      exact (Except.ok.inj h).symm
  subst hA
  constructor
  · rw [performParetoAnalysis_high, performParetoAnalysis_medium, performParetoAnalysis_low,
      performParetoAnalysis_totalRows]
    apply filter_three_length
    intro r hr
    rw [performParetoAnalysis_rowAnalyses] at hr
    rcases mem_analyzeRows hr with ⟨c', v, _, rfl⟩
    rw [mkRowAnalysis_classification]
    exact classifyTier_cases _
  · rw [performParetoAnalysis_totalRows, performParetoAnalysis_rowAnalyses,
      analyzeRows_length, (sortDesc_perm _).length_eq]
    simp [valueRows]

/-- Witness for C10 at the input `"a,b\n1,2\n3,4"`. -/
theorem claim_C10_witness :
    (performParetoAnalysis (parseCSV "a,b\n1,2\n3,4")).summary.highPriority +
      (performParetoAnalysis (parseCSV "a,b\n1,2\n3,4")).summary.mediumPriority +
      (performParetoAnalysis (parseCSV "a,b\n1,2\n3,4")).summary.lowPriority =
      (performParetoAnalysis (parseCSV "a,b\n1,2\n3,4")).summary.totalRows ∧
    (performParetoAnalysis (parseCSV "a,b\n1,2\n3,4")).summary.totalRows =
      (parseCSV "a,b\n1,2\n3,4").length :=
  claim_C10 "a,b\n1,2\n3,4" (performParetoAnalysis (parseCSV "a,b\n1,2\n3,4")) (by rfl)

/-- Witness for the amended C4 at the input `"x\ny"`. -/
theorem claim_C4_witness :
    (performParetoAnalysis (parseCSV "x\ny")).summary.totalValue = 0 ∧
    (performParetoAnalysis (parseCSV "x\ny")).rowAnalyses.map
      (fun r => (r.metrics.contribution, r.metrics.cumulativePercentage, r.classification)) =
      (parseCSV "x\ny").map (fun _ => ((0 : ℚ), (0 : ℚ), "Alta Prioridad")) ∧
    analyze "x\ny" = Except.ok (performParetoAnalysis (parseCSV "x\ny")) :=
  claim_C4_amended "x\ny" (by decide) (by decide)

/-- C8: for every classified record the distinguished "top 20%" marker message
appears in the recommendation list exactly when the cumulative share is at
most 20, and each tier yields its fixed tier-specific messages in the order
of section 4.5, with the marker (when present) appended after them. -/
theorem claim_C8 (tv contr cum : ℚ) (cls : String) :
    ("⭐ Top 20%: Este elemento es de los más valiosos del conjunto" ∈
        generateRecommendations tv cls contr cum ↔ cum ≤ 20) ∧
    (cls = "Alta Prioridad" → generateRecommendations tv cls contr cum =
      (["Esta línea es crítica: representa el " ++ qToFixed1 contr ++ "% del valor total",
        "Priorizar recursos y atención inmediata en este elemento",
        "Implementar seguimiento continuo y métricas de rendimiento"] ++
       (if tv > 0 then ["Buscar oportunidades de optimización para maximizar el retorno"]
        else [])) ++
      (if cum ≤ 20 then ["⭐ Top 20%: Este elemento es de los más valiosos del conjunto"]
       else [])) ∧
    (cls = "Media Prioridad" → generateRecommendations tv cls contr cum =
      ["Contribuye con " ++ qToFixed1 contr ++ "% del valor total",
       "Mantener seguimiento regular y considerar para optimización secundaria",
       "Evaluar si puede mejorarse para entrar en el grupo de alta prioridad"] ++
      (if cum ≤ 20 then ["⭐ Top 20%: Este elemento es de los más valiosos del conjunto"]
       else [])) ∧
    (cls ≠ "Alta Prioridad" → cls ≠ "Media Prioridad" →
      generateRecommendations tv cls contr cum =
      ["Impacto limitado: " ++ qToFixed1 contr ++ "% del valor total",
       "Considerar automatización o simplificación de procesos",
       "Evaluar si los recursos asignados son proporcionales al impacto"] ++
      (if cum ≤ 20 then ["⭐ Top 20%: Este elemento es de los más valiosos del conjunto"]
       else [])) := by
  refine ⟨?_, ?_, ?_, ?_⟩
  · by_cases hcum : cum ≤ 20
    · constructor
      · intro _
        exact hcum
      · intro _
        simp [generateRecommendations, hcum]
    · apply iff_of_false ?_ hcum
      intro hmem
      simp only [generateRecommendations, hcum, if_false, List.append_nil] at hmem
      by_cases h1 : cls = "Alta Prioridad"
      · rw [if_pos h1] at hmem
        rcases List.mem_append.mp hmem with h | h
        · simp only [List.mem_cons, List.not_mem_nil, or_false] at h
          rcases h with h | h | h
          · exact contrib_msg_ne_marker "Esta línea es crítica: representa el " (qToFixed1 contr) "% del valor total" 'E' (by decide) (by decide) h.symm
          · exact absurd h (by decide)
          · exact absurd h (by decide)
        · by_cases h2 : tv > 0
          · rw [if_pos h2] at hmem
            rw [if_pos h2] at h
            simp only [List.mem_cons, List.not_mem_nil, or_false] at h
            exact absurd h (by decide)
          · rw [if_neg h2] at h
            exact absurd h (List.not_mem_nil _)
      · rw [if_neg h1] at hmem
        by_cases h2 : cls = "Media Prioridad"
        · rw [if_pos h2] at hmem
          simp only [List.mem_cons, List.not_mem_nil, or_false] at hmem
          rcases hmem with h | h | h
          · exact contrib_msg_ne_marker "Contribuye con " (qToFixed1 contr) "% del valor total" 'C' (by decide) (by decide) h.symm
          · exact absurd h (by decide)
          · exact absurd h (by decide)
        · rw [if_neg h2] at hmem
          simp only [List.mem_cons, List.not_mem_nil, or_false] at hmem
          rcases hmem with h | h | h
          · exact contrib_msg_ne_marker "Impacto limitado: " (qToFixed1 contr) "% del valor total" 'I' (by decide) (by decide) h.symm
          · exact absurd h (by decide)
          · exact absurd h (by decide)
  · intro h
    subst h
    simp [generateRecommendations]
  · intro h
    subst h
    simp [generateRecommendations]
  · intro h1 h2
    simp only [generateRecommendations, if_neg h1, if_neg h2]


/-- Witness for C8 with tier High, weight 1, contribution 10, cumulative 10. -/
theorem claim_C8_witness :
    generateRecommendations 1 "Alta Prioridad" 10 10 =
      (["Esta línea es crítica: representa el " ++ qToFixed1 10 ++ "% del valor total",
        "Priorizar recursos y atención inmediata en este elemento",
        "Implementar seguimiento continuo y métricas de rendimiento"] ++
       (if (1:ℚ) > 0 then ["Buscar oportunidades de optimización para maximizar el retorno"]
        else [])) ++
      (if (10:ℚ) ≤ 20 then ["⭐ Top 20%: Este elemento es de los más valiosos del conjunto"]
       else []) :=
  (claim_C8 1 10 10 "Alta Prioridad").2.1 rfl

end Pareto
